import Mathlib

/-!
Verification of the bouncy-ball arcade game's physics engine, collision
resolvers, score calculator and game-session loop.  The TypeScript source
works on IEEE doubles; we embed it over the real numbers, with `Real.sqrt`
standing for `Math.sqrt`.  Definitions follow the source files
(`lib/physics.ts`, `lib/levels.ts`, `lib/storage.ts`, `components/GameCanvas.tsx`)
line by line.
-/

namespace BouncyBall

/-- Global constants from `lib/levels.ts`. -/
def CANVAS_WIDTH : ℝ := 800

def CANVAS_HEIGHT : ℝ := 560

def BALL_RADIUS : ℝ := 14

def GRAVITY : ℝ := 0.3

def RESTITUTION : ℝ := 0.75

def LAUNCH_POWER : ℝ := 0.12

def MAX_DRAG_DIST : ℝ := 150

def STAR_RADIUS : ℝ := 16

/-- Structure `BallState` from `lib/types.ts`: position and velocity. -/
structure BallState where
  x : ℝ
  y : ℝ
  vx : ℝ
  vy : ℝ

/-- Structure `RectObstacle` from `lib/types.ts`. -/
structure RectObstacle where
  x : ℝ
  y : ℝ
  width : ℝ
  height : ℝ

/-- Structure `CircleObstacle` from `lib/types.ts`. -/
structure CircleObstacle where
  x : ℝ
  y : ℝ
  radius : ℝ

/-- Type `Obstacle` from `lib/types.ts`: tagged union of rect and circle. -/
inductive Obstacle where
  | rect : RectObstacle → Obstacle
  | circle : CircleObstacle → Obstacle

/-- Structure `GoalZone` from `lib/types.ts`. -/
structure GoalZone where
  x : ℝ
  y : ℝ
  width : ℝ
  height : ℝ

/-- Structure `StepResult` from `lib/physics.ts`. -/
structure StepResult where
  ball : BallState
  wallBounced : Bool
  obstacleBounced : Bool
  outOfBounds : Bool

noncomputable instance (priority := low) (p : Prop) : Decidable p :=
  Classical.propDecidable p

/-- Function `resolveRectCollision` from `lib/physics.ts`: closest-point test against the
rectangle, then push-out along the normal and velocity reflection scaled by
restitution.  Contact requires `0 < distSq < r²`. -/
noncomputable def resolveRectCollision (ball : BallState) (rect : RectObstacle) :
    BallState × Bool :=
  let x := ball.x
  let y := ball.y
  let vx := ball.vx
  let vy := ball.vy
  let r := BALL_RADIUS
  let closestX := max rect.x (min x (rect.x + rect.width))
  let closestY := max rect.y (min y (rect.y + rect.height))
  let dx := x - closestX
  let dy := y - closestY
  let distSq := dx * dx + dy * dy
  if distSq < r * r ∧ distSq > 0 then
    let dist := Real.sqrt distSq
    let nx := dx / dist
    let ny := dy / dist
    let pen := r - dist
    let newX := x + nx * pen
    let newY := y + ny * pen
    let dot := vx * nx + vy * ny
    let newVx := (vx - 2 * dot * nx) * RESTITUTION
    let newVy := (vy - 2 * dot * ny) * RESTITUTION
    (⟨newX, newY, newVx, newVy⟩, true)
  else
    (ball, false)

/-- Function `resolveCircleObstacleCollision` from `lib/physics.ts`: center-to-center
distance test, push-out along the normal and reflected, restitution-scaled
velocity.  Contact requires `0 < dist < BALL_RADIUS + circle.radius`. -/
noncomputable def resolveCircleObstacleCollision (ball : BallState)
    (circle : CircleObstacle) : BallState × Bool :=
  let x := ball.x
  let y := ball.y
  let vx := ball.vx
  let vy := ball.vy
  let r := BALL_RADIUS
  let dx := x - circle.x
  let dy := y - circle.y
  let dist := Real.sqrt (dx * dx + dy * dy)
  let minDist := r + circle.radius
  if dist < minDist ∧ dist > 0 then
    let nx := dx / dist
    let ny := dy / dist
    let pen := minDist - dist
    let newX := x + nx * pen
    let newY := y + ny * pen
    let dot := vx * nx + vy * ny
    let newVx := (vx - 2 * dot * nx) * RESTITUTION
    let newVy := (vy - 2 * dot * ny) * RESTITUTION
    (⟨newX, newY, newVx, newVy⟩, true)
  else
    (ball, false)

/-- The inline dispatch `obs.type === 'rect' ? resolveRectCollision : resolveCircleObstacleCollision`
from the obstacle loop of `stepPhysics`. -/
noncomputable def resolveObstacle (ball : BallState) : Obstacle → BallState × Bool
  | Obstacle.rect r => resolveRectCollision ball r
  | Obstacle.circle c => resolveCircleObstacleCollision ball c

/-- Function `stepPhysics` from `lib/physics.ts`, translated statement by statement:
gravity, position integration, the three sequential wall clamps (left, right,
ceiling — the bottom edge has no clamp), the obstacle loop accumulating
corrections in list order, and the out-of-bounds test. -/
noncomputable def stepPhysics (ball : BallState) (obstacles : List Obstacle) :
    StepResult :=
  let vy0 := ball.vy + GRAVITY
  let x0 := ball.x + ball.vx
  let y0 := ball.y + vy0
  -- Left wall
  let s1 : ℝ × ℝ × Bool :=
    if x0 - BALL_RADIUS < 0 then (BALL_RADIUS, |ball.vx| * RESTITUTION, true)
    else (x0, ball.vx, false)
  -- Right wall
  let s2 : ℝ × ℝ × Bool :=
    if s1.1 + BALL_RADIUS > CANVAS_WIDTH then
      (CANVAS_WIDTH - BALL_RADIUS, -|s1.2.1| * RESTITUTION, true)
    else s1
  -- Ceiling
  let s3 : ℝ × ℝ :=
    if y0 - BALL_RADIUS < 0 then (BALL_RADIUS, |vy0| * RESTITUTION)
    else (y0, vy0)
  let wallBounced := if y0 - BALL_RADIUS < 0 then true else s2.2.2
  let start : BallState := ⟨s2.1, s3.1, s2.2.1, s3.2⟩
  let final : BallState × Bool :=
    obstacles.foldl
      (fun acc obs =>
        let result := resolveObstacle acc.1 obs
        if result.2 then (result.1, true) else acc)
      (start, false)
  { ball := final.1
    wallBounced := wallBounced
    obstacleBounced := final.2
    outOfBounds := if final.1.y - BALL_RADIUS > CANVAS_HEIGHT then true else false }

/-- Function `checkStarCollection` from `lib/physics.ts`. -/
noncomputable def checkStarCollection (ball : BallState) (starX starY : ℝ) : Prop :=
  Real.sqrt ((ball.x - starX) * (ball.x - starX) + (ball.y - starY) * (ball.y - starY)) <
    BALL_RADIUS + STAR_RADIUS

/-- Function `checkGoalEntry` from `lib/physics.ts`: radius-expanded AABB overlap. -/
def checkGoalEntry (ball : BallState) (goal : GoalZone) : Prop :=
  ball.x + BALL_RADIUS > goal.x ∧
  ball.x - BALL_RADIUS < goal.x + goal.width ∧
  ball.y + BALL_RADIUS > goal.y ∧
  ball.y - BALL_RADIUS < goal.y + goal.height

/-! ### Named phases of `stepPhysics`

The bodies of these definitions are the corresponding statements of
`stepPhysics` in `lib/physics.ts`, split into the phases the design document
names, so that the monolithic translation above can be compared with the
phase-by-phase reading. -/

/-- Phase 1 of `stepPhysics`: `vy += GRAVITY`. -/
def applyGravity (b : BallState) : BallState :=
  ⟨b.x, b.y, b.vx, b.vy + GRAVITY⟩

/-- Phase 2 of `stepPhysics`: `x += vx; y += vy`. -/
def integrate (b : BallState) : BallState :=
  ⟨b.x + b.vx, b.y + b.vy, b.vx, b.vy⟩

/-- Phase 3 of `stepPhysics`: the three sequential wall clamps.  Left and right
clamp `x` to a radius-offset and reflect `vx` through its absolute value; the
ceiling clamps `y` and reflects `vy`; the bottom edge is never clamped.
Returns the corrected ball and the `wallBounced` flag. -/
noncomputable def resolveWalls (b : BallState) : BallState × Bool :=
  let s1 : ℝ × ℝ × Bool :=
    if b.x - BALL_RADIUS < 0 then (BALL_RADIUS, |b.vx| * RESTITUTION, true)
    else (b.x, b.vx, false)
  let s2 : ℝ × ℝ × Bool :=
    if s1.1 + BALL_RADIUS > CANVAS_WIDTH then
      (CANVAS_WIDTH - BALL_RADIUS, -|s1.2.1| * RESTITUTION, true)
    else s1
  let s3 : ℝ × ℝ :=
    if b.y - BALL_RADIUS < 0 then (BALL_RADIUS, |b.vy| * RESTITUTION)
    else (b.y, b.vy)
  let w := if b.y - BALL_RADIUS < 0 then true else s2.2.2
  (⟨s2.1, s3.1, s2.2.1, s3.2⟩, w)

/-- Phase 4 of `stepPhysics`: the obstacle loop, each resolution seeing the
state already corrected by the previous one; the flag records whether any
obstacle contact occurred. -/
noncomputable def resolveObstacles (b : BallState) (obstacles : List Obstacle) :
    BallState × Bool :=
  obstacles.foldl
    (fun acc obs =>
      let result := resolveObstacle acc.1 obs
      if result.2 then (result.1, true) else acc)
    (b, false)

/-! ### Contact predicates

These predicates restate the contact tests that open `resolveRectCollision`
and `resolveCircleObstacleCollision`; they are what "collision detection
reports a contact" means for a given ball and obstacle. -/

/-- Squared distance from the ball center to the closest point of a rectangle,
as computed by `resolveRectCollision`. -/
def rectDistSq (b : BallState) (rect : RectObstacle) : ℝ :=
  let closestX := max rect.x (min b.x (rect.x + rect.width))
  let closestY := max rect.y (min b.y (rect.y + rect.height))
  (b.x - closestX) * (b.x - closestX) + (b.y - closestY) * (b.y - closestY)

/-- The rectangle contact test of `resolveRectCollision`:
`0 < distSq < BALL_RADIUS²`. -/
def rectContact (b : BallState) (rect : RectObstacle) : Prop :=
  rectDistSq b rect < BALL_RADIUS * BALL_RADIUS ∧ rectDistSq b rect > 0

/-- Center distance from the ball to a circle obstacle, as computed by
`resolveCircleObstacleCollision`. -/
noncomputable def circleDist (b : BallState) (c : CircleObstacle) : ℝ :=
  Real.sqrt ((b.x - c.x) * (b.x - c.x) + (b.y - c.y) * (b.y - c.y))

/-- The circle contact test of `resolveCircleObstacleCollision`:
`0 < dist < BALL_RADIUS + radius`. -/
def circleContact (b : BallState) (c : CircleObstacle) : Prop :=
  circleDist b c < BALL_RADIUS + c.radius ∧ circleDist b c > 0

/-- Contact test for either obstacle shape. -/
def obstacleContact (b : BallState) : Obstacle → Prop
  | Obstacle.rect r => rectContact b r
  | Obstacle.circle c => circleContact b c

/-- Speed: the magnitude of the velocity vector of a ball state. -/
noncomputable def speedOf (b : BallState) : ℝ :=
  Real.sqrt (b.vx * b.vx + b.vy * b.vy)

/-- The corrected state the specification's resolver contract describes,
written from its words: the position is pushed out along the contact normal
by the penetration depth, and the velocity is reflected about that normal and
scaled by the restitution coefficient, `v' = (v - 2(v·n)n) * restitution`;
the normal is the normalized vector from the closest rectangle point (resp.
the circle center) to the ball center. -/
noncomputable def specCorrectedState (b : BallState) : Obstacle → BallState
  | Obstacle.rect rect =>
    let closestX := max rect.x (min b.x (rect.x + rect.width))
    let closestY := max rect.y (min b.y (rect.y + rect.height))
    let dx := b.x - closestX
    let dy := b.y - closestY
    let dist := Real.sqrt (dx * dx + dy * dy)
    let nx := dx / dist
    let ny := dy / dist
    let pen := BALL_RADIUS - dist
    let dot := b.vx * nx + b.vy * ny
    ⟨b.x + nx * pen, b.y + ny * pen,
      (b.vx - 2 * dot * nx) * RESTITUTION, (b.vy - 2 * dot * ny) * RESTITUTION⟩
  | Obstacle.circle c =>
    let dx := b.x - c.x
    let dy := b.y - c.y
    let dist := Real.sqrt (dx * dx + dy * dy)
    let nx := dx / dist
    let ny := dy / dist
    let pen := BALL_RADIUS + c.radius - dist
    let dot := b.vx * nx + b.vy * ny
    ⟨b.x + nx * pen, b.y + ny * pen,
      (b.vx - 2 * dot * nx) * RESTITUTION, (b.vy - 2 * dot * ny) * RESTITUTION⟩

/-! ### Score calculator (`lib/storage.ts`)

`calculateScore` involves no square roots, so it is embedded computably:
integer counters stay integers and the elapsed seconds become a rational. -/

/-- Structure `ScoreBreakdown` from `lib/types.ts`. -/
structure ScoreBreakdown where
  starsBonus : ℤ
  bounceEfficiency : ℤ
  timeBonus : ℤ
  total : ℤ
deriving DecidableEq

/-- Function `calculateScore` from `lib/storage.ts`. -/
def calculateScore (starsCollected bounces : ℤ) (timeSeconds : ℚ)
    (maxBounces : ℤ) : ScoreBreakdown :=
  let starsBonus := starsCollected * 500
  let bounceEfficiency := max 0 ((maxBounces - bounces) * 100)
  let timeBonus := max 0 ⌊(60 - timeSeconds) * 10⌋
  let total := starsBonus + bounceEfficiency + timeBonus
  ⟨starsBonus, bounceEfficiency, timeBonus, total⟩

/-! ### Session model (`components/GameCanvas.tsx`)

The per-step body of the `requestAnimationFrame` loop (physics step, bounce
counter, star collection, then the win / out-of-bounds / bounce-limit checks
with their one-shot latches) becomes a `tick` function on an explicit session
state; the `phase === 'playing'` guard of the loop is the leading guard of
`tick`, and the early `return` on a terminal transition corresponds to `tick`
being the identity once the phase is no longer `playing`. -/

/-- Enumeration `GamePhase` from `lib/types.ts`. -/
inductive GamePhase where
  | aiming
  | playing
  | paused
  | won
  | lost
deriving DecidableEq

/-- The parts of `LevelConfig` (`lib/types.ts`) the simulation reads. -/
structure LevelConfig where
  ballStart : ℝ × ℝ
  obstacles : List Obstacle
  stars : List (ℝ × ℝ)
  goal : GoalZone
  maxBounces : ℕ

/-- The mutable refs of `GameCanvas` that drive one session run. -/
structure Session where
  ball : BallState
  bounces : ℕ
  starsCollected : List Bool
  winFired : Bool
  loseFired : Bool
  phase : GamePhase

/-- The star-collection pass of the loop: a star not yet collected flips to
collected when `checkStarCollection` holds for the stepped ball. -/
noncomputable def updateStars (b : BallState) (stars : List (ℝ × ℝ))
    (collected : List Bool) : List Bool :=
  (stars.zip collected).map
    (fun p => p.2 || if checkStarCollection b p.1.1 p.1.2 then true else false)

/-- One fixed-timestep simulation step of the `GameCanvas` loop: runs only
while `playing`; advances the physics, increments the bounce counter on any
bounce, collects stars, then checks goal entry, out-of-bounds and the bounce
limit in that order, the first true check firing its terminal transition and
setting its latch. -/
noncomputable def tick (lvl : LevelConfig) (s : Session) : Session :=
  if s.phase = GamePhase.playing then
    let result := stepPhysics s.ball lvl.obstacles
    let bounces :=
      if result.wallBounced || result.obstacleBounced then s.bounces + 1
      else s.bounces
    let stars := updateStars result.ball lvl.stars s.starsCollected
    let s1 : Session :=
      { s with ball := result.ball, bounces := bounces, starsCollected := stars }
    if s.winFired = false ∧ checkGoalEntry result.ball lvl.goal then
      { s1 with winFired := true, phase := GamePhase.won }
    else if s.loseFired = false ∧ result.outOfBounds = true then
      { s1 with loseFired := true, phase := GamePhase.lost }
    else if s.loseFired = false ∧ bounces > lvl.maxBounces then
      { s1 with loseFired := true, phase := GamePhase.lost }
    else s1
  else s

/-- Function `handleMouseUp` from `GameCanvas.tsx`, reduced to its data content: from
the drag start and release points, either discard the drag (magnitude below
5) or set the launch velocity and enter `playing`. -/
noncomputable def handleMouseUp (ball : BallState) (start finish : ℝ × ℝ) :
    BallState × GamePhase :=
  let dx := finish.1 - start.1
  let dy := finish.2 - start.2
  let dist := min (Real.sqrt (dx * dx + dy * dy)) MAX_DRAG_DIST
  if dist < 5 then (ball, GamePhase.aiming)
  else
    let mag := Real.sqrt (dx * dx + dy * dy)
    let speed := dist * LAUNCH_POWER
    (⟨ball.x, ball.y, dx / mag * speed, dy / mag * speed⟩, GamePhase.playing)

/-! ### Helper lemmas -/

/-- Function `tick` does nothing outside the `playing` phase (the loop's phase guard
and the early `return` after a terminal transition). -/
lemma tick_of_not_playing (lvl : LevelConfig) (s : Session)
    (h : s.phase ≠ GamePhase.playing) : tick lvl s = s := by
  simp [tick, h]

/-- A normalized nonzero vector has unit squared length. -/
lemma normal_sq_one (dx dy : ℝ) (h : 0 < dx * dx + dy * dy) :
    dx / Real.sqrt (dx * dx + dy * dy) * (dx / Real.sqrt (dx * dx + dy * dy)) +
      dy / Real.sqrt (dx * dx + dy * dy) * (dy / Real.sqrt (dx * dx + dy * dy)) =
      1 := by
  have hs : Real.sqrt (dx * dx + dy * dy) * Real.sqrt (dx * dx + dy * dy) =
      dx * dx + dy * dy := Real.mul_self_sqrt h.le
  have hne : Real.sqrt (dx * dx + dy * dy) ≠ 0 :=
    ne_of_gt (Real.sqrt_pos.mpr h)
  field_simp

/-- Reflecting a velocity about a unit normal and scaling by the restitution
does not increase its squared magnitude. -/
lemma reflect_speed_sq (vx vy nx ny : ℝ) (hn : nx * nx + ny * ny = 1) :
    (vx - 2 * (vx * nx + vy * ny) * nx) * RESTITUTION *
        ((vx - 2 * (vx * nx + vy * ny) * nx) * RESTITUTION) +
      (vy - 2 * (vx * nx + vy * ny) * ny) * RESTITUTION *
        ((vy - 2 * (vx * nx + vy * ny) * ny) * RESTITUTION) ≤
      vx * vx + vy * vy := by
  have key : (vx - 2 * (vx * nx + vy * ny) * nx) * RESTITUTION *
        ((vx - 2 * (vx * nx + vy * ny) * nx) * RESTITUTION) +
      (vy - 2 * (vx * nx + vy * ny) * ny) * RESTITUTION *
        ((vy - 2 * (vx * nx + vy * ny) * ny) * RESTITUTION) =
      RESTITUTION * RESTITUTION * (vx * vx + vy * vy) := by
    simp only [RESTITUTION]
    linear_combination
      ((9 : ℝ) / 4 * ((vx * nx + vy * ny) * (vx * nx + vy * ny))) * hn
  rw [key]
  have hS : 0 ≤ vx * vx + vy * vy :=
    add_nonneg (mul_self_nonneg vx) (mul_self_nonneg vy)
  have hR : RESTITUTION * RESTITUTION ≤ 1 := by norm_num [RESTITUTION]
  calc RESTITUTION * RESTITUTION * (vx * vx + vy * vy) ≤
      1 * (vx * vx + vy * vy) := mul_le_mul_of_nonneg_right hR hS
    _ = vx * vx + vy * vy := one_mul _

/-- Moving a point away from its clamped projection onto an interval (by a
nonnegative multiple of the offset) does not change the projection. -/
lemma clamp_move (lo hi x t : ℝ) (ht : 0 ≤ t) :
    max lo (min (x + t * (x - max lo (min x hi))) hi) = max lo (min x hi) := by
  rcases le_or_lt lo hi with hlh | hlh
  · rcases le_or_lt x lo with hxl | hxl
    · have h1 : min x hi = x := min_eq_left (hxl.trans hlh)
      have h2 : max lo (min x hi) = lo := by rw [h1]; exact max_eq_left hxl
      rw [h2]
      have hx' : x + t * (x - lo) ≤ x := by nlinarith
      have h3 : min (x + t * (x - lo)) hi = x + t * (x - lo) :=
        min_eq_left ((hx'.trans hxl).trans hlh)
      rw [h3]
      exact max_eq_left (hx'.trans hxl)
    · rcases le_or_lt x hi with hxh | hxh
      · have h1 : min x hi = x := min_eq_left hxh
        have h2 : max lo (min x hi) = x := by rw [h1]; exact max_eq_right hxl.le
        rw [h2]
        rw [show x + t * (x - x) = x by ring, h1]
        exact max_eq_right hxl.le
      · have h1 : min x hi = hi := min_eq_right hxh.le
        have h2 : max lo (min x hi) = hi := by rw [h1]; exact max_eq_right hlh
        rw [h2]
        have hx' : hi ≤ x + t * (x - hi) := by nlinarith
        have h3 : min (x + t * (x - hi)) hi = hi := min_eq_right hx'
        rw [h3]
        exact max_eq_right hlh
  · have h1 : ∀ z : ℝ, max lo (min z hi) = lo := fun z =>
      max_eq_left ((min_le_right z hi).trans hlh.le)
    simp only [h1]

/-- Pushing a nonzero offset vector out to total length `m` along itself
gives a vector of squared length `m * m`. -/
lemma pushout_sq (dx dy m : ℝ) (h : 0 < dx * dx + dy * dy) :
    (dx + dx / Real.sqrt (dx * dx + dy * dy) * (m - Real.sqrt (dx * dx + dy * dy))) *
        (dx + dx / Real.sqrt (dx * dx + dy * dy) *
          (m - Real.sqrt (dx * dx + dy * dy))) +
      (dy + dy / Real.sqrt (dx * dx + dy * dy) *
          (m - Real.sqrt (dx * dx + dy * dy))) *
        (dy + dy / Real.sqrt (dx * dx + dy * dy) *
          (m - Real.sqrt (dx * dx + dy * dy))) = m * m := by
  have hs : Real.sqrt (dx * dx + dy * dy) * Real.sqrt (dx * dx + dy * dy) =
      dx * dx + dy * dy := Real.mul_self_sqrt h.le
  have hne : Real.sqrt (dx * dx + dy * dy) ≠ 0 :=
    ne_of_gt (Real.sqrt_pos.mpr h)
  have hSne : dx * dx + dy * dy ≠ 0 := ne_of_gt h
  have e1 : dx + dx / Real.sqrt (dx * dx + dy * dy) *
      (m - Real.sqrt (dx * dx + dy * dy)) =
      dx * m / Real.sqrt (dx * dx + dy * dy) := by
    field_simp
    ring
  have e2 : dy + dy / Real.sqrt (dx * dx + dy * dy) *
      (m - Real.sqrt (dx * dx + dy * dy)) =
      dy * m / Real.sqrt (dx * dx + dy * dy) := by
    field_simp
    ring
  rw [e1, e2, div_mul_div_comm, div_mul_div_comm, div_add_div_same, hs,
    div_eq_iff hSne]
  ring

/-- Algebraic core of the rectangle push-out: if `s` is the (positive)
distance from the ball center to its clamped projection and `s ≤ BALL_RADIUS`,
then the pushed-out center `(A, B)` has squared distance exactly
`BALL_RADIUS²` from its (unchanged) clamped projection. -/
lemma rect_pushout_core (bx bb rx ry w h s A B : ℝ)
    (hspos : 0 < s)
    (hss : s * s =
      (bx - max rx (min bx (rx + w))) * (bx - max rx (min bx (rx + w))) +
        (bb - max ry (min bb (ry + h))) * (bb - max ry (min bb (ry + h))))
    (hsle : s ≤ BALL_RADIUS)
    (hA : A = bx + (bx - max rx (min bx (rx + w))) / s * (BALL_RADIUS - s))
    (hB : B = bb + (bb - max ry (min bb (ry + h))) / s * (BALL_RADIUS - s)) :
    (A - max rx (min A (rx + w))) * (A - max rx (min A (rx + w))) +
      (B - max ry (min B (ry + h))) * (B - max ry (min B (ry + h))) =
      BALL_RADIUS * BALL_RADIUS := by
  have hne : s ≠ 0 := ne_of_gt hspos
  have htt : 0 ≤ (BALL_RADIUS - s) / s :=
    div_nonneg (sub_nonneg.mpr hsle) hspos.le
  have hA2 : A = bx + (BALL_RADIUS - s) / s * (bx - max rx (min bx (rx + w))) := by
    rw [hA]; ring
  have hB2 : B = bb + (BALL_RADIUS - s) / s * (bb - max ry (min bb (ry + h))) := by
    rw [hB]; ring
  have hclx : max rx (min A (rx + w)) = max rx (min bx (rx + w)) := by
    rw [hA2]; exact clamp_move rx (rx + w) bx _ htt
  have hcly : max ry (min B (ry + h)) = max ry (min bb (ry + h)) := by
    rw [hB2]; exact clamp_move ry (ry + h) bb _ htt
  rw [hclx, hcly, hA2, hB2]
  field_simp
  linear_combination (-(BALL_RADIUS * BALL_RADIUS)) * hss

/-- A rectangle resolution that reports a bounce leaves the ball exactly
touching the rectangle: the contact test on the returned state fails. -/
lemma resolveRect_no_contact (b : BallState) (r : RectObstacle)
    (h : (resolveRectCollision b r).2 = true) :
    ¬ rectContact (resolveRectCollision b r).1 r := by
  by_cases hc :
      (b.x - max r.x (min b.x (r.x + r.width))) *
          (b.x - max r.x (min b.x (r.x + r.width))) +
        (b.y - max r.y (min b.y (r.y + r.height))) *
          (b.y - max r.y (min b.y (r.y + r.height))) <
        BALL_RADIUS * BALL_RADIUS ∧
      (b.x - max r.x (min b.x (r.x + r.width))) *
          (b.x - max r.x (min b.x (r.x + r.width))) +
        (b.y - max r.y (min b.y (r.y + r.height))) *
          (b.y - max r.y (min b.y (r.y + r.height))) > 0
  · have ex : (resolveRectCollision b r).1.x =
        b.x + (b.x - max r.x (min b.x (r.x + r.width))) /
          Real.sqrt ((b.x - max r.x (min b.x (r.x + r.width))) *
              (b.x - max r.x (min b.x (r.x + r.width))) +
            (b.y - max r.y (min b.y (r.y + r.height))) *
              (b.y - max r.y (min b.y (r.y + r.height)))) *
          (BALL_RADIUS -
            Real.sqrt ((b.x - max r.x (min b.x (r.x + r.width))) *
                (b.x - max r.x (min b.x (r.x + r.width))) +
              (b.y - max r.y (min b.y (r.y + r.height))) *
                (b.y - max r.y (min b.y (r.y + r.height))))) := by
      simp only [resolveRectCollision]
      rw [if_pos hc]
    have ey : (resolveRectCollision b r).1.y =
        b.y + (b.y - max r.y (min b.y (r.y + r.height))) /
          Real.sqrt ((b.x - max r.x (min b.x (r.x + r.width))) *
              (b.x - max r.x (min b.x (r.x + r.width))) +
            (b.y - max r.y (min b.y (r.y + r.height))) *
              (b.y - max r.y (min b.y (r.y + r.height)))) *
          (BALL_RADIUS -
            Real.sqrt ((b.x - max r.x (min b.x (r.x + r.width))) *
                (b.x - max r.x (min b.x (r.x + r.width))) +
              (b.y - max r.y (min b.y (r.y + r.height))) *
                (b.y - max r.y (min b.y (r.y + r.height))))) := by
      simp only [resolveRectCollision]
      rw [if_pos hc]
    have hspos : 0 < Real.sqrt ((b.x - max r.x (min b.x (r.x + r.width))) *
        (b.x - max r.x (min b.x (r.x + r.width))) +
      (b.y - max r.y (min b.y (r.y + r.height))) *
        (b.y - max r.y (min b.y (r.y + r.height)))) :=
      Real.sqrt_pos.mpr hc.2
    have hss : Real.sqrt ((b.x - max r.x (min b.x (r.x + r.width))) *
        (b.x - max r.x (min b.x (r.x + r.width))) +
      (b.y - max r.y (min b.y (r.y + r.height))) *
        (b.y - max r.y (min b.y (r.y + r.height)))) *
        Real.sqrt ((b.x - max r.x (min b.x (r.x + r.width))) *
            (b.x - max r.x (min b.x (r.x + r.width))) +
          (b.y - max r.y (min b.y (r.y + r.height))) *
            (b.y - max r.y (min b.y (r.y + r.height)))) =
        (b.x - max r.x (min b.x (r.x + r.width))) *
            (b.x - max r.x (min b.x (r.x + r.width))) +
          (b.y - max r.y (min b.y (r.y + r.height))) *
            (b.y - max r.y (min b.y (r.y + r.height))) :=
      Real.mul_self_sqrt hc.2.le
    have hsle : Real.sqrt ((b.x - max r.x (min b.x (r.x + r.width))) *
        (b.x - max r.x (min b.x (r.x + r.width))) +
      (b.y - max r.y (min b.y (r.y + r.height))) *
        (b.y - max r.y (min b.y (r.y + r.height)))) ≤ BALL_RADIUS := by
      have h1 := Real.sqrt_le_sqrt hc.1.le
      rwa [Real.sqrt_mul_self (by norm_num [BALL_RADIUS] : (0:ℝ) ≤ BALL_RADIUS)]
        at h1
    intro hcon
    have hd : rectDistSq (resolveRectCollision b r).1 r =
        BALL_RADIUS * BALL_RADIUS := by
      simp only [rectDistSq, ex, ey]
      exact rect_pushout_core b.x b.y r.x r.y r.width r.height _ _ _
        hspos hss hsle rfl rfl
    simp only [rectContact] at hcon
    rw [hd] at hcon
    exact lt_irrefl _ hcon.1
  · simp only [resolveRectCollision] at h
    rw [if_neg hc] at h
    exact absurd h (by simp)

/-- A circle resolution that reports a bounce leaves the ball exactly
touching the circle: the contact test on the returned state fails. -/
lemma resolveCircle_no_contact (b : BallState) (c : CircleObstacle)
    (h : (resolveCircleObstacleCollision b c).2 = true) :
    ¬ circleContact (resolveCircleObstacleCollision b c).1 c := by
  by_cases hc :
      Real.sqrt ((b.x - c.x) * (b.x - c.x) + (b.y - c.y) * (b.y - c.y)) <
        BALL_RADIUS + c.radius ∧
      Real.sqrt ((b.x - c.x) * (b.x - c.x) + (b.y - c.y) * (b.y - c.y)) > 0
  · have hpos : 0 < (b.x - c.x) * (b.x - c.x) + (b.y - c.y) * (b.y - c.y) :=
      Real.sqrt_pos.mp hc.2
    have ex : (resolveCircleObstacleCollision b c).1.x =
        b.x + (b.x - c.x) /
            Real.sqrt ((b.x - c.x) * (b.x - c.x) + (b.y - c.y) * (b.y - c.y)) *
          (BALL_RADIUS + c.radius -
            Real.sqrt ((b.x - c.x) * (b.x - c.x) + (b.y - c.y) * (b.y - c.y))) := by
      simp only [resolveCircleObstacleCollision]
      rw [if_pos hc]
    have ey : (resolveCircleObstacleCollision b c).1.y =
        b.y + (b.y - c.y) /
            Real.sqrt ((b.x - c.x) * (b.x - c.x) + (b.y - c.y) * (b.y - c.y)) *
          (BALL_RADIUS + c.radius -
            Real.sqrt ((b.x - c.x) * (b.x - c.x) + (b.y - c.y) * (b.y - c.y))) := by
      simp only [resolveCircleObstacleCollision]
      rw [if_pos hc]
    intro hcon
    have hd : circleDist (resolveCircleObstacleCollision b c).1 c =
        BALL_RADIUS + c.radius := by
      simp only [circleDist, ex, ey]
      rw [show b.x + (b.x - c.x) /
            Real.sqrt ((b.x - c.x) * (b.x - c.x) + (b.y - c.y) * (b.y - c.y)) *
          (BALL_RADIUS + c.radius -
            Real.sqrt ((b.x - c.x) * (b.x - c.x) + (b.y - c.y) * (b.y - c.y))) -
          c.x =
          (b.x - c.x) + (b.x - c.x) /
            Real.sqrt ((b.x - c.x) * (b.x - c.x) + (b.y - c.y) * (b.y - c.y)) *
          (BALL_RADIUS + c.radius -
            Real.sqrt ((b.x - c.x) * (b.x - c.x) + (b.y - c.y) * (b.y - c.y)))
          from by ring,
        show b.y + (b.y - c.y) /
            Real.sqrt ((b.x - c.x) * (b.x - c.x) + (b.y - c.y) * (b.y - c.y)) *
          (BALL_RADIUS + c.radius -
            Real.sqrt ((b.x - c.x) * (b.x - c.x) + (b.y - c.y) * (b.y - c.y))) -
          c.y =
          (b.y - c.y) + (b.y - c.y) /
            Real.sqrt ((b.x - c.x) * (b.x - c.x) + (b.y - c.y) * (b.y - c.y)) *
          (BALL_RADIUS + c.radius -
            Real.sqrt ((b.x - c.x) * (b.x - c.x) + (b.y - c.y) * (b.y - c.y)))
          from by ring]
      rw [pushout_sq (b.x - c.x) (b.y - c.y) (BALL_RADIUS + c.radius) hpos]
      exact Real.sqrt_mul_self
        (le_of_lt (lt_of_le_of_lt (Real.sqrt_nonneg _) hc.1))
    simp only [circleContact] at hcon
    rw [hd] at hcon
    exact lt_irrefl _ hcon.1
  · simp only [resolveCircleObstacleCollision] at h
    rw [if_neg hc] at h
    exact absurd h (by simp)

/-- One pass of the obstacle loop over a single obstacle leaves no contact
with that obstacle when it reports a bounce. -/
lemma resolve_single_no_residual (st : BallState) (o : Obstacle)
    (h : (if (resolveObstacle st o).2 then ((resolveObstacle st o).1, true)
        else ((st, false) : BallState × Bool)).2 = true) :
    ¬ obstacleContact
      (if (resolveObstacle st o).2 then ((resolveObstacle st o).1, true)
        else ((st, false) : BallState × Bool)).1 o := by
  by_cases hb : (resolveObstacle st o).2 = true
  · rw [if_pos hb]
    cases o with
    | rect r => exact resolveRect_no_contact st r hb
    | circle c => exact resolveCircle_no_contact st c hb
  · rw [if_neg hb] at h
    exact absurd h (by simp)

end BouncyBall

namespace BouncyBall

/-- C1.  `stepPhysics` advances exactly one tick in the order gravity,
integration, wall containment (left, right, ceiling; never the bottom),
sequential obstacle resolution in list order, and the out-of-bounds test
`ball.y - BALL_RADIUS > CANVAS_HEIGHT` on the resulting state.  Being a Lean
function into `StepResult`, it is total on every (finite) input, including
zero-velocity states. -/
theorem stepPhysics_phase_decomposition (ball : BallState)
    (obstacles : List Obstacle) :
    (stepPhysics ball obstacles =
      { ball := (resolveObstacles (resolveWalls (integrate (applyGravity ball))).1
          obstacles).1
        wallBounced := (resolveWalls (integrate (applyGravity ball))).2
        obstacleBounced := (resolveObstacles
          (resolveWalls (integrate (applyGravity ball))).1 obstacles).2
        outOfBounds :=
          if (resolveObstacles (resolveWalls (integrate (applyGravity ball))).1
                obstacles).1.y - BALL_RADIUS > CANVAS_HEIGHT
          then true else false }) ∧
    ((stepPhysics ball obstacles).outOfBounds = true ↔
      (stepPhysics ball obstacles).ball.y - BALL_RADIUS > CANVAS_HEIGHT) := by
  constructor
  · rfl
  · simp only [stepPhysics]
    by_cases h :
        ((resolveObstacles (resolveWalls (integrate (applyGravity ball))).1
          obstacles).1.y - BALL_RADIUS > CANVAS_HEIGHT) <;>
      simp_all [resolveObstacles, resolveWalls, integrate, applyGravity]

/-- C7.  `calculateScore` returns exactly the specified breakdown:
`starsBonus = starsCollected * 500`,
`bounceEfficiency = max 0 ((maxBounces - bounces) * 100)`,
`timeBonus = max 0 ⌊(60 - elapsedSeconds) * 10⌋`, and `total` their sum;
the two clamped components are never negative, and the total has no upper
clamp (it exceeds any given bound for suitable inputs with
`starsCollected ∈ [0, 3]`). -/
theorem calculateScore_spec (s b : ℤ) (t : ℚ) (m : ℤ) :
    (calculateScore s b t m).starsBonus = s * 500 ∧
    (calculateScore s b t m).bounceEfficiency = max 0 ((m - b) * 100) ∧
    (calculateScore s b t m).timeBonus = max 0 ⌊(60 - t) * 10⌋ ∧
    (calculateScore s b t m).total =
      (calculateScore s b t m).starsBonus +
        (calculateScore s b t m).bounceEfficiency +
        (calculateScore s b t m).timeBonus ∧
    0 ≤ (calculateScore s b t m).bounceEfficiency ∧
    0 ≤ (calculateScore s b t m).timeBonus ∧
    ∀ B : ℤ, ∃ s2 b2 : ℤ, ∃ t2 : ℚ, ∃ m2 : ℤ,
      0 ≤ s2 ∧ s2 ≤ 3 ∧ B < (calculateScore s2 b2 t2 m2).total := by
  refine ⟨rfl, rfl, rfl, rfl, le_max_left _ _, le_max_left _ _, ?_⟩
  intro B
  refine ⟨0, 0, 0, |B| + 1, le_refl 0, by norm_num, ?_⟩
  have hB : B ≤ |B| := le_abs_self B
  have habs : 0 ≤ |B| := abs_nonneg B
  have h1 : ((0 : ℤ) : ℚ) = 0 := by norm_num
  simp only [calculateScore]
  have hfl : ⌊((60 : ℚ) - 0) * 10⌋ = 600 := by norm_num
  rw [hfl]
  have h2 : max (0 : ℤ) ((|B| + 1 - 0) * 100) = (|B| + 1) * 100 := by
    rw [max_eq_right] <;> omega
  rw [h2]
  have h3 : max (0 : ℤ) 600 = 600 := by norm_num
  rw [h3]
  omega

/-- C10.  Each wall clamp reflects the relevant velocity component through its
absolute value, so the post-clamp component always points away from the wall:
left contact gives `vx = |vx| * RESTITUTION ≥ 0`, right contact gives
`vx = -|vx| * RESTITUTION ≤ 0`, and ceiling contact gives
`vy = |vy| * RESTITUTION ≥ 0`, regardless of the component's sign before the
clamp. -/
theorem resolveWalls_reflects_away (b : BallState) :
    (b.x - BALL_RADIUS < 0 →
      (resolveWalls b).1.vx = |b.vx| * RESTITUTION ∧
        0 ≤ (resolveWalls b).1.vx) ∧
    (b.x + BALL_RADIUS > CANVAS_WIDTH →
      (resolveWalls b).1.vx = -|b.vx| * RESTITUTION ∧
        (resolveWalls b).1.vx ≤ 0) ∧
    (b.y - BALL_RADIUS < 0 →
      (resolveWalls b).1.vy = |b.vy| * RESTITUTION ∧
        0 ≤ (resolveWalls b).1.vy) := by
  refine ⟨?_, ?_, ?_⟩
  · intro h
    have hnr : ¬ (BALL_RADIUS + BALL_RADIUS > CANVAS_WIDTH) := by
      norm_num [BALL_RADIUS, CANVAS_WIDTH]
    have hvx : (resolveWalls b).1.vx = |b.vx| * RESTITUTION := by
      simp [resolveWalls, h, hnr]
    exact ⟨hvx, by
      rw [hvx]
      exact mul_nonneg (abs_nonneg _) (by norm_num [RESTITUTION])⟩
  · intro h
    have hnl : ¬ (b.x - BALL_RADIUS < 0) := by
      norm_num [BALL_RADIUS, CANVAS_WIDTH] at h ⊢
      linarith
    have hvx : (resolveWalls b).1.vx = -|b.vx| * RESTITUTION := by
      simp [resolveWalls, h, hnl]
    exact ⟨hvx, by
      rw [hvx]
      have := mul_nonneg (abs_nonneg b.vx) (show (0:ℝ) ≤ RESTITUTION by
        norm_num [RESTITUTION])
      linarith⟩
  · intro h
    have hvy : (resolveWalls b).1.vy = |b.vy| * RESTITUTION := by
      simp [resolveWalls, h]
    exact ⟨hvy, by
      rw [hvy]
      exact mul_nonneg (abs_nonneg _) (by norm_num [RESTITUTION])⟩

/-- Witness for C10: concrete contacts at each of the three walls, with the
ball moving toward the wall or away from it, always leaving with the
component pointing away. -/
theorem resolveWalls_reflects_away_witness :
    ((resolveWalls ⟨0, 100, -2, 0⟩).1.vx = |(-2 : ℝ)| * RESTITUTION ∧
      0 ≤ (resolveWalls ⟨0, 100, -2, 0⟩).1.vx) ∧
    ((resolveWalls ⟨800, 100, 2, 0⟩).1.vx = -|(2 : ℝ)| * RESTITUTION ∧
      (resolveWalls ⟨800, 100, 2, 0⟩).1.vx ≤ 0) ∧
    ((resolveWalls ⟨400, 0, 0, -2⟩).1.vy = |(-2 : ℝ)| * RESTITUTION ∧
      0 ≤ (resolveWalls ⟨400, 0, 0, -2⟩).1.vy) :=
  ⟨(resolveWalls_reflects_away ⟨0, 100, -2, 0⟩).1
      (by norm_num [BALL_RADIUS]),
    (resolveWalls_reflects_away ⟨800, 100, 2, 0⟩).2.1
      (by norm_num [BALL_RADIUS, CANVAS_WIDTH]),
    (resolveWalls_reflects_away ⟨400, 0, 0, -2⟩).2.2
      (by norm_num [BALL_RADIUS])⟩

/-- C5.  The bounce counter is non-decreasing across ticks, and on a playing
tick it increments by exactly 1 when at least one bounce event occurred
(`wallBounced` or `obstacleBounced`) and by 0 otherwise — a single increment
even when several obstacles were struck in the same tick. -/
theorem tick_bounce_counter (lvl : LevelConfig) (s : Session) :
    (s.phase = GamePhase.playing →
      (tick lvl s).bounces =
        (if (stepPhysics s.ball lvl.obstacles).wallBounced ||
            (stepPhysics s.ball lvl.obstacles).obstacleBounced
         then s.bounces + 1 else s.bounces)) ∧
    s.bounces ≤ (tick lvl s).bounces := by
  constructor
  · intro h
    simp only [tick, h, if_pos]
    split_ifs <;> simp_all
  · by_cases h : s.phase = GamePhase.playing
    · simp only [tick, h, if_pos]
      split_ifs <;> simp_all
    · rw [tick_of_not_playing lvl s h]

/-- Witness for C5: a playing tick with no obstacles and no wall contact keeps
the counter unchanged, and the counter never decreases. -/
theorem tick_bounce_counter_witness :
    (tick ⟨(100, 300), [], [], ⟨340, 230, 140, 130⟩, 20⟩
        ⟨⟨400, 300, 0, 0⟩, 4, [], false, false, GamePhase.playing⟩).bounces = 4 ∧
    (4 : ℕ) ≤ (tick ⟨(100, 300), [], [], ⟨340, 230, 140, 130⟩, 20⟩
        ⟨⟨400, 300, 0, 0⟩, 4, [], false, false, GamePhase.playing⟩).bounces := by
  have h := tick_bounce_counter
    ⟨(100, 300), [], [], ⟨340, 230, 140, 130⟩, 20⟩
    ⟨⟨400, 300, 0, 0⟩, 4, [], false, false, GamePhase.playing⟩
  have h1 := h.1 rfl
  have hstep : (stepPhysics ⟨400, 300, 0, 0⟩ []).wallBounced = false ∧
      (stepPhysics ⟨400, 300, 0, 0⟩ []).obstacleBounced = false := by
    constructor <;>
      norm_num [stepPhysics, BALL_RADIUS, CANVAS_WIDTH, CANVAS_HEIGHT, GRAVITY]
  rw [hstep.1, hstep.2] at h1
  norm_num at h1
  exact ⟨h1, h.2⟩

/-- C4.  While `playing`, a simulation step checks goal entry, then
out-of-bounds, then the bounce limit, in that order; only the first true
condition fires its terminal transition and sets its one-shot latch, a step
that fires no condition stays `playing`, and once the session is `won` or
`lost` any number of further steps leave it unchanged — no terminal
transition ever fires again. -/
theorem tick_termination_order (lvl : LevelConfig) (s : Session) :
    (s.phase = GamePhase.playing → s.winFired = false →
      checkGoalEntry (stepPhysics s.ball lvl.obstacles).ball lvl.goal →
      (tick lvl s).phase = GamePhase.won ∧ (tick lvl s).winFired = true) ∧
    (s.phase = GamePhase.playing → s.loseFired = false →
      ¬ checkGoalEntry (stepPhysics s.ball lvl.obstacles).ball lvl.goal →
      (stepPhysics s.ball lvl.obstacles).outOfBounds = true →
      (tick lvl s).phase = GamePhase.lost ∧ (tick lvl s).loseFired = true) ∧
    (s.phase = GamePhase.playing → s.loseFired = false →
      ¬ checkGoalEntry (stepPhysics s.ball lvl.obstacles).ball lvl.goal →
      (stepPhysics s.ball lvl.obstacles).outOfBounds = false →
      (if (stepPhysics s.ball lvl.obstacles).wallBounced ||
          (stepPhysics s.ball lvl.obstacles).obstacleBounced
        then s.bounces + 1 else s.bounces) > lvl.maxBounces →
      (tick lvl s).phase = GamePhase.lost ∧ (tick lvl s).loseFired = true) ∧
    (s.phase = GamePhase.playing →
      ¬ checkGoalEntry (stepPhysics s.ball lvl.obstacles).ball lvl.goal →
      (stepPhysics s.ball lvl.obstacles).outOfBounds = false →
      ¬ ((if (stepPhysics s.ball lvl.obstacles).wallBounced ||
            (stepPhysics s.ball lvl.obstacles).obstacleBounced
          then s.bounces + 1 else s.bounces) > lvl.maxBounces) →
      (tick lvl s).phase = GamePhase.playing) ∧
    (s.phase = GamePhase.won ∨ s.phase = GamePhase.lost →
      ∀ n : ℕ, (tick lvl)^[n] s = s) := by
  refine ⟨?_, ?_, ?_, ?_, ?_⟩
  · intro hp hw hg
    simp only [tick, hp, if_pos]
    rw [if_pos ⟨hw, hg⟩]
    exact ⟨rfl, rfl⟩
  · intro hp hl hg ho
    simp only [tick, hp, if_pos]
    rw [if_neg (by simp [hg]), if_pos ⟨hl, ho⟩]
    exact ⟨rfl, rfl⟩
  · intro hp hl hg ho hb
    simp only [tick, hp, if_pos]
    rw [if_neg (by simp [hg]), if_neg (by simp [ho]), if_pos ⟨hl, hb⟩]
    exact ⟨rfl, rfl⟩
  · intro hp hg ho hb
    simp only [tick, hp, if_pos]
    rw [if_neg (by simp [hg]), if_neg (by simp [ho]),
      if_neg (by intro hc; exact hb hc.2)]
  · intro hterm n
    induction n with
    | zero => rfl
    | succ k ih =>
      rw [Function.iterate_succ_apply, tick_of_not_playing lvl s (by
        rcases hterm with h | h <;> simp [h]), ih]

/-- Witness for C4: on a goal-free straight drop the step fires `won` the
moment the ball overlaps the goal zone, fires `lost` out of bounds below the
canvas, fires `lost` past the bounce limit, and a `won` session is unchanged
by five further steps. -/
theorem tick_termination_order_witness :
    ((tick ⟨(100, 300), [], [], ⟨340, 230, 140, 130⟩, 20⟩
        ⟨⟨400, 300, 0, 0⟩, 0, [], false, false, GamePhase.playing⟩).phase =
          GamePhase.won ∧
      (tick ⟨(100, 300), [], [], ⟨340, 230, 140, 130⟩, 20⟩
        ⟨⟨400, 300, 0, 0⟩, 0, [], false, false, GamePhase.playing⟩).winFired =
          true) ∧
    ((tick ⟨(100, 300), [], [], ⟨340, 230, 140, 130⟩, 20⟩
        ⟨⟨400, 600, 0, 0⟩, 0, [], false, false, GamePhase.playing⟩).phase =
          GamePhase.lost) ∧
    ((tick ⟨(100, 300), [], [], ⟨340, 230, 140, 130⟩, 20⟩
        ⟨⟨400, 100, 0, 0⟩, 21, [], false, false, GamePhase.playing⟩).phase =
          GamePhase.lost) ∧
    ((tick ⟨(100, 300), [], [], ⟨340, 230, 140, 130⟩, 20⟩)^[5]
        ⟨⟨400, 300, 0, 0⟩, 0, [], false, true, GamePhase.won⟩ =
      ⟨⟨400, 300, 0, 0⟩, 0, [], false, true, GamePhase.won⟩) := by
  have hgoal : checkGoalEntry (stepPhysics ⟨400, 300, 0, 0⟩ []).ball
      ⟨340, 230, 140, 130⟩ := by
    norm_num [stepPhysics, checkGoalEntry, BALL_RADIUS, CANVAS_WIDTH,
      CANVAS_HEIGHT, GRAVITY]
  have hgoal2 : ¬ checkGoalEntry (stepPhysics ⟨400, 600, 0, 0⟩ []).ball
      ⟨340, 230, 140, 130⟩ := by
    norm_num [stepPhysics, checkGoalEntry, BALL_RADIUS, CANVAS_WIDTH,
      CANVAS_HEIGHT, GRAVITY]
  have hoob2 : (stepPhysics ⟨400, 600, 0, 0⟩ []).outOfBounds = true := by
    norm_num [stepPhysics, BALL_RADIUS, CANVAS_WIDTH, CANVAS_HEIGHT, GRAVITY]
  have hgoal3 : ¬ checkGoalEntry (stepPhysics ⟨400, 100, 0, 0⟩ []).ball
      ⟨340, 230, 140, 130⟩ := by
    norm_num [stepPhysics, checkGoalEntry, BALL_RADIUS, CANVAS_WIDTH,
      CANVAS_HEIGHT, GRAVITY]
  have hoob3 : (stepPhysics ⟨400, 100, 0, 0⟩ []).outOfBounds = false := by
    norm_num [stepPhysics, BALL_RADIUS, CANVAS_WIDTH, CANVAS_HEIGHT, GRAVITY]
  have hnb3 : (stepPhysics ⟨400, 100, 0, 0⟩ []).wallBounced = false ∧
      (stepPhysics ⟨400, 100, 0, 0⟩ []).obstacleBounced = false := by
    constructor <;>
      norm_num [stepPhysics, BALL_RADIUS, CANVAS_WIDTH, CANVAS_HEIGHT, GRAVITY]
  have T1 := tick_termination_order ⟨(100, 300), [], [], ⟨340, 230, 140, 130⟩, 20⟩
    ⟨⟨400, 300, 0, 0⟩, 0, [], false, false, GamePhase.playing⟩
  have T2 := tick_termination_order ⟨(100, 300), [], [], ⟨340, 230, 140, 130⟩, 20⟩
    ⟨⟨400, 600, 0, 0⟩, 0, [], false, false, GamePhase.playing⟩
  have T3 := tick_termination_order ⟨(100, 300), [], [], ⟨340, 230, 140, 130⟩, 20⟩
    ⟨⟨400, 100, 0, 0⟩, 21, [], false, false, GamePhase.playing⟩
  have T4 := tick_termination_order ⟨(100, 300), [], [], ⟨340, 230, 140, 130⟩, 20⟩
    ⟨⟨400, 300, 0, 0⟩, 0, [], false, true, GamePhase.won⟩
  refine ⟨T1.1 rfl rfl hgoal, ?_, ?_, ?_⟩
  · exact (T2.2.1 rfl rfl hgoal2 hoob2).1
  · refine (T3.2.2.1 rfl rfl hgoal3 hoob3 ?_).1
    rw [hnb3.1, hnb3.2]
    norm_num
  · exact T4.2.2.2.2 (Or.inl rfl) 5

/-- C6.  A completed drag launches the ball exactly when the clamped drag
magnitude `min(|drag|, MAX_DRAG_DIST)` is at least 5: the session moves from
aiming to playing with velocity equal to the normalized drag direction times
the clamped magnitude times `LAUNCH_POWER`; a shorter drag (including a
zero-magnitude one) is discarded, leaving the ball's velocity unchanged and
the session in aiming. -/
theorem handleMouseUp_launch_threshold (ball : BallState) (start finish : ℝ × ℝ) :
    (min (Real.sqrt ((finish.1 - start.1) * (finish.1 - start.1) +
          (finish.2 - start.2) * (finish.2 - start.2))) MAX_DRAG_DIST < 5 →
      handleMouseUp ball start finish = (ball, GamePhase.aiming)) ∧
    (5 ≤ min (Real.sqrt ((finish.1 - start.1) * (finish.1 - start.1) +
          (finish.2 - start.2) * (finish.2 - start.2))) MAX_DRAG_DIST →
      handleMouseUp ball start finish =
        (⟨ball.x, ball.y,
          (finish.1 - start.1) /
              Real.sqrt ((finish.1 - start.1) * (finish.1 - start.1) +
                (finish.2 - start.2) * (finish.2 - start.2)) *
            (min (Real.sqrt ((finish.1 - start.1) * (finish.1 - start.1) +
                (finish.2 - start.2) * (finish.2 - start.2))) MAX_DRAG_DIST *
              LAUNCH_POWER),
          (finish.2 - start.2) /
              Real.sqrt ((finish.1 - start.1) * (finish.1 - start.1) +
                (finish.2 - start.2) * (finish.2 - start.2)) *
            (min (Real.sqrt ((finish.1 - start.1) * (finish.1 - start.1) +
                (finish.2 - start.2) * (finish.2 - start.2))) MAX_DRAG_DIST *
              LAUNCH_POWER)⟩,
          GamePhase.playing)) := by
  constructor
  · intro h
    simp only [handleMouseUp]
    rw [if_pos h]
  · intro h
    simp only [handleMouseUp]
    rw [if_neg (not_lt.mpr h)]

/-- Witness for C6: a 50-unit drag (3-4-5 triangle scaled) launches with
velocity `(3.6, 4.8)` into `playing`; a 1-unit drag is discarded and the
session stays aiming with the ball untouched. -/
theorem handleMouseUp_launch_threshold_witness :
    handleMouseUp ⟨100, 300, 0, 0⟩ (100, 300) (130, 340) =
      (⟨100, 300, 3.6, 4.8⟩, GamePhase.playing) ∧
    handleMouseUp ⟨100, 300, 0, 0⟩ (100, 300) (101, 300) =
      (⟨100, 300, 0, 0⟩, GamePhase.aiming) := by
  have hs : Real.sqrt (((130 : ℝ) - 100) * (130 - 100) + (340 - 300) * (340 - 300)) =
      50 := by
    rw [show (((130 : ℝ) - 100) * (130 - 100) + (340 - 300) * (340 - 300)) =
      50 ^ 2 by norm_num]
    exact Real.sqrt_sq (by norm_num)
  have hs1 : Real.sqrt (((101 : ℝ) - 100) * (101 - 100) + (300 - 300) * (300 - 300)) =
      1 := by
    rw [show (((101 : ℝ) - 100) * (101 - 100) + (300 - 300) * (300 - 300)) =
      1 ^ 2 by norm_num]
    exact Real.sqrt_sq (by norm_num)
  constructor
  · have h := (handleMouseUp_launch_threshold ⟨100, 300, 0, 0⟩ (100, 300)
      (130, 340)).2 (by rw [hs]; norm_num [MAX_DRAG_DIST])
    rw [h]
    rw [Prod.mk.injEq]
    refine ⟨?_, rfl⟩
    rw [BallState.mk.injEq]
    rw [hs]
    norm_num [MAX_DRAG_DIST, LAUNCH_POWER]
  · have h := (handleMouseUp_launch_threshold ⟨100, 300, 0, 0⟩ (100, 300)
      (101, 300)).1 (by rw [hs1]; norm_num [MAX_DRAG_DIST])
    exact h

/-- C9.  Every collision resolved during a tick is non-energizing: the wall
clamps and the obstacle resolver never increase the magnitude of the
velocity vector. -/
theorem collision_speed_nonincrease (b : BallState) (o : Obstacle) :
    speedOf (resolveWalls b).1 ≤ speedOf b ∧
    speedOf (resolveObstacle b o).1 ≤ speedOf b := by
  constructor
  · simp only [speedOf, resolveWalls, RESTITUTION]
    split_ifs <;>
      · apply Real.sqrt_le_sqrt
        simp only
        nlinarith [abs_mul_abs_self b.vx, abs_mul_abs_self b.vy,
          abs_nonneg b.vx, abs_nonneg b.vy,
          mul_self_nonneg b.vx, mul_self_nonneg b.vy,
          abs_of_nonneg (mul_nonneg (abs_nonneg b.vx)
            (by norm_num : (0:ℝ) ≤ 0.75)),
          abs_of_nonneg (mul_nonneg (abs_nonneg b.vy)
            (by norm_num : (0:ℝ) ≤ 0.75))]
  · cases o with
    | rect r =>
      simp only [resolveObstacle, resolveRectCollision]
      split_ifs with hc
      · simp only [speedOf]
        apply Real.sqrt_le_sqrt
        exact reflect_speed_sq b.vx b.vy _ _ (normal_sq_one _ _ hc.2)
      · exact le_refl _
    | circle c =>
      simp only [resolveObstacle, resolveCircleObstacleCollision]
      split_ifs with hc
      · simp only [speedOf]
        apply Real.sqrt_le_sqrt
        exact reflect_speed_sq b.vx b.vy _ _
          (normal_sq_one _ _ (Real.sqrt_pos.mp hc.2))
      · exact le_refl _

/-- C2.  The resolver returns the state unchanged with `bounced = false`
exactly outside contact, and inside contact returns the push-out along the
normal with the restitution-scaled reflected velocity; contact is the strict
squared-distance window for rectangles and the strict center-distance window
for circles, so distance `0` counts as no collision and the normal is never
built from a zero vector. -/
theorem resolveObstacle_contract (b : BallState) (o : Obstacle) :
    (obstacleContact b o →
      resolveObstacle b o = (specCorrectedState b o, true)) ∧
    (¬ obstacleContact b o → resolveObstacle b o = (b, false)) := by
  cases o with
  | rect r =>
    constructor
    · intro h
      simp only [obstacleContact, rectContact, rectDistSq] at h
      simp only [resolveObstacle, resolveRectCollision, specCorrectedState]
      rw [if_pos h]
    · intro h
      simp only [obstacleContact, rectContact, rectDistSq] at h
      simp only [resolveObstacle, resolveRectCollision]
      rw [if_neg h]
  | circle c =>
    constructor
    · intro h
      simp only [obstacleContact, circleContact, circleDist] at h
      simp only [resolveObstacle, resolveCircleObstacleCollision,
        specCorrectedState]
      rw [if_pos h]
    · intro h
      simp only [obstacleContact, circleContact, circleDist] at h
      simp only [resolveObstacle, resolveCircleObstacleCollision]
      rw [if_neg h]

/-- Witness for C2: a ball overlapping a circle obstacle is resolved to the
specified corrected state, and a far-away ball is returned unchanged. -/
theorem resolveObstacle_contract_witness :
    (obstacleContact ⟨18, 100, 0, 0⟩ (Obstacle.circle ⟨0, 100, 10⟩) ∧
      resolveObstacle ⟨18, 100, 0, 0⟩ (Obstacle.circle ⟨0, 100, 10⟩) =
        (specCorrectedState ⟨18, 100, 0, 0⟩ (Obstacle.circle ⟨0, 100, 10⟩),
          true)) ∧
    (¬ obstacleContact ⟨500, 100, 0, 0⟩ (Obstacle.circle ⟨0, 100, 10⟩) ∧
      resolveObstacle ⟨500, 100, 0, 0⟩ (Obstacle.circle ⟨0, 100, 10⟩) =
        (⟨500, 100, 0, 0⟩, false)) := by
  have h324 : Real.sqrt (324 : ℝ) = 18 := by
    rw [show (324 : ℝ) = 18 ^ 2 by norm_num]
    exact Real.sqrt_sq (by norm_num)
  have h25 : Real.sqrt (250000 : ℝ) = 500 := by
    rw [show (250000 : ℝ) = 500 ^ 2 by norm_num]
    exact Real.sqrt_sq (by norm_num)
  have hcontact : obstacleContact ⟨18, 100, 0, 0⟩ (Obstacle.circle ⟨0, 100, 10⟩) := by
    simp only [obstacleContact, circleContact, circleDist]
    norm_num [BALL_RADIUS, h324]
  have hno : ¬ obstacleContact ⟨500, 100, 0, 0⟩ (Obstacle.circle ⟨0, 100, 10⟩) := by
    simp only [obstacleContact, circleContact, circleDist]
    norm_num [BALL_RADIUS, h25]
  exact ⟨⟨hcontact, (resolveObstacle_contract ⟨18, 100, 0, 0⟩
      (Obstacle.circle ⟨0, 100, 10⟩)).1 hcontact⟩,
    ⟨hno, (resolveObstacle_contract ⟨500, 100, 0, 0⟩
      (Obstacle.circle ⟨0, 100, 10⟩)).2 hno⟩⟩

/-- C8.  Whenever the resolver reports `bounced = true`, re-running the same
contact detection on the returned ball state against the same obstacle
reports no contact. -/
theorem resolver_no_residual_contact (b : BallState) (o : Obstacle)
    (h : (resolveObstacle b o).2 = true) :
    ¬ obstacleContact (resolveObstacle b o).1 o := by
  cases o with
  | rect r => exact resolveRect_no_contact b r h
  | circle c => exact resolveCircle_no_contact b c h

/-- Witness for C8: a concrete overlapping circle contact is resolved, and
detection on the result reports no contact. -/
theorem resolver_no_residual_contact_witness :
    (resolveObstacle ⟨18, 100, 0, 0⟩ (Obstacle.circle ⟨0, 100, 10⟩)).2 = true ∧
    ¬ obstacleContact
      (resolveObstacle ⟨18, 100, 0, 0⟩ (Obstacle.circle ⟨0, 100, 10⟩)).1
      (Obstacle.circle ⟨0, 100, 10⟩) := by
  have h324 : Real.sqrt (324 : ℝ) = 18 := by
    rw [show (324 : ℝ) = 18 ^ 2 by norm_num]
    exact Real.sqrt_sq (by norm_num)
  have hb : (resolveObstacle ⟨18, 100, 0, 0⟩ (Obstacle.circle ⟨0, 100, 10⟩)).2 =
      true := by
    norm_num [resolveObstacle, resolveCircleObstacleCollision, BALL_RADIUS, h324]
  exact ⟨hb, resolver_no_residual_contact ⟨18, 100, 0, 0⟩
    (Obstacle.circle ⟨0, 100, 10⟩) hb⟩

/-- Counterexample to C3: a tick over the obstacle list
`[circle (0,100,10), circle (30,100,10)]` starting at `(18,100)` with zero
effective velocity bounces off the first circle (pushed to `x = 24`), then the
second circle pushes the ball back to `x = 6` — and at the end of the tick the
ball interpenetrates the first obstacle of the list, which it hit during that
very tick. -/
theorem stepPhysics_penetration_counterexample :
    (stepPhysics ⟨18, 100, 0, -0.3⟩
        [Obstacle.circle ⟨0, 100, 10⟩,
          Obstacle.circle ⟨30, 100, 10⟩]).obstacleBounced = true ∧
    obstacleContact
      (stepPhysics ⟨18, 100, 0, -0.3⟩
        [Obstacle.circle ⟨0, 100, 10⟩, Obstacle.circle ⟨30, 100, 10⟩]).ball
      (Obstacle.circle ⟨0, 100, 10⟩) := by
  have h324 : Real.sqrt (324 : ℝ) = 18 := by
    rw [show (324 : ℝ) = 18 ^ 2 by norm_num]
    exact Real.sqrt_sq (by norm_num)
  have h36 : Real.sqrt (36 : ℝ) = 6 := by
    rw [show (36 : ℝ) = 6 ^ 2 by norm_num]
    exact Real.sqrt_sq (by norm_num)
  constructor <;>
    norm_num [stepPhysics, resolveObstacle, resolveCircleObstacleCollision,
      obstacleContact, circleContact, circleDist, GRAVITY, BALL_RADIUS,
      CANVAS_WIDTH, CANVAS_HEIGHT, RESTITUTION, h324, h36, List.foldl]

/-- C3, amended.  With a single-obstacle list, a tick that reports an
obstacle bounce ends with the ball not interpenetrating that obstacle (the
contact detector reports no contact on the final state — the ball ends
exactly touching, separation zero).  With two or more obstacles the property
fails: a later resolution can push the ball back into an earlier obstacle,
as the counterexample shows. -/
theorem stepPhysics_single_obstacle_no_residual (ball : BallState)
    (o : Obstacle) (h : (stepPhysics ball [o]).obstacleBounced = true) :
    ¬ obstacleContact (stepPhysics ball [o]).ball o :=
  resolve_single_no_residual _ o h

/-- Witness for the amended C3: the single-circle tick from the
counterexample's configuration bounces and ends with no contact. -/
theorem stepPhysics_single_obstacle_no_residual_witness :
    (stepPhysics ⟨18, 100, 0, -0.3⟩
        [Obstacle.circle ⟨0, 100, 10⟩]).obstacleBounced = true ∧
    ¬ obstacleContact
      (stepPhysics ⟨18, 100, 0, -0.3⟩ [Obstacle.circle ⟨0, 100, 10⟩]).ball
      (Obstacle.circle ⟨0, 100, 10⟩) := by
  have h324 : Real.sqrt (324 : ℝ) = 18 := by
    rw [show (324 : ℝ) = 18 ^ 2 by norm_num]
    exact Real.sqrt_sq (by norm_num)
  have hb : (stepPhysics ⟨18, 100, 0, -0.3⟩
      [Obstacle.circle ⟨0, 100, 10⟩]).obstacleBounced = true := by
    norm_num [stepPhysics, resolveObstacle, resolveCircleObstacleCollision,
      GRAVITY, BALL_RADIUS, CANVAS_WIDTH, CANVAS_HEIGHT, RESTITUTION, h324,
      List.foldl]
  exact ⟨hb, stepPhysics_single_obstacle_no_residual ⟨18, 100, 0, -0.3⟩
    (Obstacle.circle ⟨0, 100, 10⟩) hb⟩

end BouncyBall
